import Mathlib

/-!
Shallow embedding of `src/hooks/useVotingSession.ts` (food-van-vote).

The TypeScript module is a React hook built around a single pure reducer.
We embed:

* the data model (`Poll`, `Van`, the state shape `VotingState`),
* JavaScript object-as-map semantics for `VoteCounts`
  (`Record<string, number>`) as association lists with first-match lookup
  and replace-or-append update (`jsGet` / `jsSet`),
* the pure tally aggregator `derivePercentages`,
* the reducer over the closed action set,
* the action sequences that the asynchronous handlers dispatch
  (`bootstrapActions`, `castVoteActions`, `vansChangeActions`),
  as pure functions of the fetch/RPC outcomes.

JavaScript numbers are modelled as `ℤ` for counts (the code applies
`Math.max(0, …)` explicitly, so non-negativity is a property, not a type
assumption) and `Math.round` on the non-negative rationals that occur here
is `⌊q + 1/2⌋` (round half toward positive infinity, exactly JS semantics).
-/

namespace FoodVanVote

/-- `Poll` row, from the `Poll` interface in the source. -/
structure Poll where
  id : String
  title : String
  month_year : String
  is_active : Bool
  created_by : Option String
  created_at : String
  deriving DecidableEq

/-- `Van` row (an option of the poll), from the `Van` interface. -/
structure Van where
  id : String
  poll_id : String
  name : String
  description : Option String
  image_url : Option String
  created_at : String
  deriving DecidableEq

/-- `VoteCounts = Record<string, number>`: a JS object used as a map from
van id to count, embedded as an association list in key-insertion order. -/
abbrev VoteCounts := List (String × ℤ)

/-- JS property read `counts[k]`: value at the first (only) occurrence of
the key, `none` when the key is absent (`undefined`). -/
def jsGet : VoteCounts → String → Option ℤ
  | [], _ => none
  | e :: rest, k => if e.1 = k then some e.2 else jsGet rest k

/-- JS spread-update `{...counts, [k]: v}`: an existing key keeps its
position and gets the new value; a new key is appended at the end. -/
def jsSet : VoteCounts → String → ℤ → VoteCounts
  | [], k, v => [(k, v)]
  | e :: rest, k, v => if e.1 = k then (k, v) :: rest else e :: jsSet rest k v

/-- `VotingStatus = "idle" | "submitting" | "voted" | "error"`. -/
inductive VotingStatus where
  | idle
  | submitting
  | voted
  | error
  deriving DecidableEq

/-- The `VotingState` shape owned by the reducer. -/
structure VotingState where
  poll : Option Poll
  vans : List Van
  voteCounts : VoteCounts
  userVanId : Option String
  totalVotes : ℤ
  percentages : List (String × ℤ)
  status : VotingStatus
  error : Option String
  isLoadingPoll : Bool
  isLoadingCounts : Bool
  deriving DecidableEq

/-- The closed, tagged action set of the reducer. `delta` is `1 | -1` in
the source type; we carry it as `ℤ` and restrict in the theorems. -/
inductive Action where
  | pollLoaded (poll : Poll) (vans : List Van)
  | countsLoaded (counts : VoteCounts)
  | userVoteLoaded (vanId : Option String)
  | countUpdated (vanId : String) (delta : ℤ)
  | pollReplaced (poll : Poll) (vans : List Van)
  | submitting
  | voteSuccess (vanId : String)
  | voteError (msg : String)
  | clearError
  | noActivePoll
  deriving DecidableEq

/-- JS `Math.round` on the (here non-negative) rationals:
round half toward positive infinity. -/
def jsRound (q : ℚ) : ℤ := ⌊q + 1/2⌋

/-- Result record of `derivePercentages`. -/
structure DeriveResult where
  percentages : List (String × ℤ)
  totalVotes : ℤ
  deriving DecidableEq

/-- The tally aggregator `derivePercentages`: `total` is the sum of all
counts; each percentage is `0` when `total === 0`, otherwise
`Math.round((n / total) * 100)`. -/
def derivePercentages (counts : VoteCounts) : DeriveResult :=
  let total : ℤ := (counts.map Prod.snd).sum
  { percentages := counts.map fun e =>
      (e.1, if total = 0 then (0 : ℤ) else jsRound (((e.2 : ℚ) / (total : ℚ)) * 100))
    totalVotes := total }

/-- JS truthiness of a nullable string (`null` and `""` are falsy),
used by the source in `action.vanId ? "voted" : "idle"`. -/
def jsTruthy : Option String → Bool
  | none => false
  | some s => s ≠ ""

/-- The `initialState` constant. -/
def initialState : VotingState :=
  { poll := none
    vans := []
    voteCounts := []
    userVanId := none
    totalVotes := 0
    percentages := []
    status := VotingStatus.idle
    error := none
    isLoadingPoll := true
    isLoadingCounts := true }

/-- The pure reducer, case for case from the source `switch`. -/
def reducer (state : VotingState) (action : Action) : VotingState :=
  match action with
  | .pollLoaded poll vans =>
      { state with poll := some poll, vans := vans, isLoadingPoll := false }
  | .noActivePoll =>
      { state with
        poll := none
        vans := []
        voteCounts := []
        isLoadingPoll := false
        isLoadingCounts := false }
  | .countsLoaded counts =>
      let d := derivePercentages counts
      { state with
        voteCounts := counts
        percentages := d.percentages
        totalVotes := d.totalVotes
        isLoadingCounts := false }
  | .userVoteLoaded vanId =>
      { state with
        userVanId := vanId
        status := if jsTruthy vanId then VotingStatus.voted else VotingStatus.idle }
  | .countUpdated vanId delta =>
      let updated := jsSet state.voteCounts vanId
        (max 0 ((jsGet state.voteCounts vanId).getD 0 + delta))
      let d := derivePercentages updated
      { state with
        voteCounts := updated
        percentages := d.percentages
        totalVotes := d.totalVotes }
  | .pollReplaced poll vans =>
      { state with
        poll := some poll
        vans := vans
        voteCounts := []
        percentages := []
        totalVotes := 0
        userVanId := none
        status := VotingStatus.idle
        isLoadingCounts := true }
  | .submitting =>
      { state with status := VotingStatus.submitting, error := none }
  | .voteSuccess vanId =>
      { state with status := VotingStatus.voted, userVanId := some vanId }
  | .voteError msg =>
      { state with status := VotingStatus.error, error := some msg }
  | .clearError =>
      { state with status := VotingStatus.idle, error := none }

/-- Dispatching a list of actions in order (`useReducer` serializes all
dispatches through the single reducer). -/
def applyActions (s : VotingState) (actions : List Action) : VotingState :=
  actions.foldl reducer s

/-- A Supabase query outcome `{ data, error }`. -/
structure FetchResult (α : Type) where
  data : Option α
  error : Option String

/-- Payload of the `cast_vote` RPC: `{ error: string }` on business-logic
failures, no `error` field otherwise. -/
structure CastVoteData where
  error : Option String
  deriving DecidableEq

/-- Outcome of `supabase.rpc("cast_vote", …)`: transport `error` and the
response payload `data`. -/
structure RpcResult where
  data : Option CastVoteData
  error : Option String
  deriving DecidableEq

/-- Count seeding in step 1c of `bootstrap`: start from zero for every
fetched van, then overwrite with each returned aggregate row. -/
def seedCounts (vans : List Van) (rows : List (String × ℤ)) : VoteCounts :=
  rows.foldl (fun acc r => jsSet acc r.1 r.2)
    (vans.foldl (fun acc v => jsSet acc v.id 0) [])

/-- The sequence of actions `bootstrap` dispatches, as a function of the
four fetch outcomes (rows of the `vote_counts` view are projected to
`(van_id, total_votes)` pairs; `existingVote` is `existingVote?.van_id`).
Mirrors the source control flow: a poll fetch error or no poll dispatches
`NO_ACTIVE_POLL` and stops; a vans fetch error logs and returns before
dispatching anything; a counts fetch error skips only `COUNTS_LOADED`;
a missing user skips only `USER_VOTE_LOADED`. -/
def bootstrapActions (pollRes : FetchResult Poll)
    (vansRes : FetchResult (List Van))
    (countsRes : FetchResult (List (String × ℤ)))
    (user : Option String) (existingVote : Option String) : List Action :=
  match pollRes.error with
  | some _ => [Action.noActivePoll]
  | none =>
    match pollRes.data with
    | none => [Action.noActivePoll]
    | some poll =>
      match vansRes.error with
      | some _ => []
      | none =>
        let vans := vansRes.data.getD []
        Action.pollLoaded poll vans ::
          ((match countsRes.error, countsRes.data with
            | none, some rows => [Action.countsLoaded (seedCounts vans rows)]
            | _, _ => []) ++
           (match user with
            | none => []
            | some _ => [Action.userVoteLoaded existingVote]))

/-- The sequence of actions `castVote(vanId)` dispatches, as a function of
the RPC outcome. `if (data?.error)` is a JS truthiness test, so an empty
embedded error string falls through to the success branch. -/
def castVoteActions (vanId : String) (res : RpcResult) : List Action :=
  Action.submitting ::
    match res.error with
    | some msg => [Action.voteError msg]
    | none =>
      match Option.bind res.data CastVoteData.error with
      | some msg =>
          if msg = "" then [Action.voteSuccess vanId] else [Action.voteError msg]
      | none => [Action.voteSuccess vanId]

/-- The actions the vans-realtime handler (2c) dispatches on any change to
the `vans` table: nothing without a displayed poll or when the re-fetch
returns no rows, otherwise a `POLL_REPLACED` dispatch carrying the current
poll and the re-fetched van list. -/
def vansChangeActions (currentPoll : Option Poll)
    (fetchedVans : Option (List Van)) : List Action :=
  match currentPoll with
  | none => []
  | some poll =>
    match fetchedVans with
    | none => []
    | some vans => [Action.pollReplaced poll vans]

/-- The actions the polls-realtime handler (2b) dispatches when a poll row
is inserted or updated to active: a `POLL_REPLACED` with the new poll and
its re-fetched vans (`vans ?? []`). -/
def pollChangeActions (newPoll : Poll) (fetchedVans : Option (List Van)) :
    List Action :=
  [Action.pollReplaced newPoll (fetchedVans.getD [])]

/-- The invariant that percentages and total are always the aggregator
projection of the current counts. -/
def countsInvariant (s : VotingState) : Prop :=
  s.percentages = (derivePercentages s.voteCounts).percentages ∧
  s.totalVotes = (derivePercentages s.voteCounts).totalVotes

/-! ### Concrete fixtures -/

/-- A sample active poll. -/
def pollMay : Poll :=
  { id := "p1"
    title := "Food Vans May"
    month_year := "2024-05"
    is_active := true
    created_by := none
    created_at := "2024-05-01" }

/-- A sample van belonging to `pollMay`. -/
def vanA : Van :=
  { id := "a"
    poll_id := "p1"
    name := "Van A"
    description := none
    image_url := none
    created_at := "2024-05-01" }

/-- A second sample van belonging to `pollMay`. -/
def vanB : Van :=
  { id := "b"
    poll_id := "p1"
    name := "Van B"
    description := none
    image_url := none
    created_at := "2024-05-02" }

/-- A loaded mid-session state: `pollMay` displayed with counts `{a: 2}`. -/
def stateA : VotingState :=
  { initialState with
    poll := some pollMay
    vans := [vanA]
    voteCounts := [("a", 2)]
    percentages := [("a", 100)]
    totalVotes := 2
    isLoadingPoll := false
    isLoadingCounts := false }

/-! ### Helper lemmas on the JS map operations -/

theorem jsGet_jsSet_self (l : VoteCounts) (k : String) (v : ℤ) :
    jsGet (jsSet l k v) k = some v := by
  induction l with
  | nil => simp [jsSet, jsGet]
  | cons e rest ih =>
    by_cases h : e.1 = k
    · simp [jsSet, jsGet, h]
    · simp only [jsSet, if_neg h, jsGet]
      exact ih

theorem jsGet_jsSet_ne (l : VoteCounts) (k j : String) (v : ℤ) (h : j ≠ k) :
    jsGet (jsSet l k v) j = jsGet l j := by
  induction l with
  | nil => simp [jsSet, jsGet, Ne.symm h]
  | cons e rest ih =>
    by_cases he : e.1 = k
    · simp only [jsSet, if_pos he, jsGet]
      rw [if_neg (Ne.symm h), if_neg (fun hh => (Ne.symm h) (he ▸ hh))]
    · simp only [jsSet, if_neg he, jsGet]
      by_cases hej : e.1 = j
      · rw [if_pos hej, if_pos hej]
      · rw [if_neg hej, if_neg hej]
        exact ih

theorem jsSet_nonneg (k : String) (v : ℤ) (hv : 0 ≤ v) :
    ∀ l : VoteCounts, (∀ e ∈ l, 0 ≤ e.2) → ∀ e ∈ jsSet l k v, 0 ≤ e.2 := by
  intro l
  induction l with
  | nil =>
    intro _ e he
    simp only [jsSet, List.mem_singleton] at he
    rw [he]
    exact hv
  | cons a rest ih =>
    intro hl e he
    by_cases h : a.1 = k
    · rw [jsSet, if_pos h] at he
      rcases List.mem_cons.mp he with he | he
      · rw [he]
        exact hv
      · exact hl e (List.mem_cons_of_mem a he)
    · rw [jsSet, if_neg h] at he
      rcases List.mem_cons.mp he with he | he
      · rw [he]
        exact hl a (List.mem_cons_self a rest)
      · exact ih (fun x hx => hl x (List.mem_cons_of_mem a hx)) e he

theorem jsGet_getD_nonneg (k : String) :
    ∀ l : VoteCounts, (∀ e ∈ l, 0 ≤ e.2) → 0 ≤ (jsGet l k).getD 0 := by
  intro l
  induction l with
  | nil => intro _; simp [jsGet]
  | cons a rest ih =>
    intro hl
    by_cases h : a.1 = k
    · simp only [jsGet, if_pos h, Option.getD_some]
      exact hl a (List.mem_cons_self a rest)
    · simp only [jsGet, if_neg h]
      exact ih fun x hx => hl x (List.mem_cons_of_mem a hx)

/-! ### Helper lemmas on the rounding function -/

theorem jsRound_nonneg (q : ℚ) (h : 0 ≤ q) : 0 ≤ jsRound q := by
  rw [jsRound]
  refine Int.le_floor.mpr ?_
  push_cast
  linarith

theorem jsRound_le_100 (q : ℚ) (h : q ≤ 100) : jsRound q ≤ 100 := by
  rw [jsRound]
  have h3 : ⌊q + 1/2⌋ < 101 := Int.floor_lt.mpr (by push_cast; linarith)
  omega

/-! ### Invariant preservation -/

theorem countsInvariant_step (s : VotingState) (a : Action)
    (ha : a ≠ Action.noActivePoll) (h : countsInvariant s) :
    countsInvariant (reducer s a) := by
  cases a with
  | pollLoaded poll vans => exact h
  | countsLoaded counts => exact ⟨rfl, rfl⟩
  | userVoteLoaded vanId => exact h
  | countUpdated vanId delta => exact ⟨rfl, rfl⟩
  | pollReplaced poll vans => exact ⟨rfl, rfl⟩
  | submitting => exact h
  | voteSuccess vanId => exact h
  | voteError msg => exact h
  | clearError => exact h
  | noActivePoll => exact absurd rfl ha

theorem countsInvariant_fold (acts : List Action) :
    ∀ s : VotingState, countsInvariant s →
      (∀ a ∈ acts, a ≠ Action.noActivePoll) →
      countsInvariant (acts.foldl reducer s) := by
  induction acts with
  | nil => intro s h _; exact h
  | cons a rest ih =>
    intro s h hall
    exact ih (reducer s a)
      (countsInvariant_step s a (hall a (List.mem_cons_self a rest)) h)
      (fun x hx => hall x (List.mem_cons_of_mem a hx))

/-! ### Claim theorems -/

/-- Claim C3, counterexample to the claim as stated: the `NO_ACTIVE_POLL`
action clears `voteCounts` but leaves `percentages` and `totalVotes`
untouched, so after `COUNTS_LOADED {a: 1}` followed by `NO_ACTIVE_POLL`
the state carries `totalVotes = 1` and a non-empty `percentages` over an
empty `voteCounts` — not the aggregator projection of the counts. -/
theorem percentages_projection_counterexample :
    ¬ countsInvariant (applyActions initialState
        [Action.countsLoaded [("a", 1)], Action.noActivePoll]) := by
  intro h
  have h2 := h.2
  simp [applyActions, reducer, countsInvariant, derivePercentages,
    initialState] at h2

/-- Claim C3 (amended): in every state reachable from the initial state by
a sequence of reducer actions that contains no `NO_ACTIVE_POLL` action,
the `percentages` and `totalVotes` fields equal exactly the result of
applying `derivePercentages` to the `voteCounts` field of that state. -/
theorem percentages_projection_of_counts (acts : List Action)
    (h : Action.noActivePoll ∉ acts) :
    countsInvariant (applyActions initialState acts) :=
  countsInvariant_fold acts initialState ⟨rfl, rfl⟩
    (fun a ha hEq => h (hEq ▸ ha))

/-- Claim C3, witness: the amended invariant holds after a concrete
action sequence without `NO_ACTIVE_POLL`. -/
theorem percentages_projection_witness :
    countsInvariant (applyActions initialState
      [Action.countsLoaded [("a", 2), ("b", 1)], Action.countUpdated "b" 1]) :=
  percentages_projection_of_counts
    [Action.countsLoaded [("a", 2), ("b", 1)], Action.countUpdated "b" 1]
    (by decide)

/-- Claim C4: for every mapping of option id to non-negative count, the
aggregator returns `totalVotes` equal to the sum of all counts; when the
total is zero every percentage is `0`; every percentage lies between `0`
and `100`; and when the total is positive each entry carries exactly
`round(100 * count / total)`. -/
theorem derivePercentages_spec (counts : VoteCounts)
    (hpos : ∀ e ∈ counts, 0 ≤ e.2) :
    (derivePercentages counts).totalVotes = (counts.map Prod.snd).sum ∧
    ((derivePercentages counts).totalVotes = 0 →
      ∀ p ∈ (derivePercentages counts).percentages, p.2 = 0) ∧
    (∀ p ∈ (derivePercentages counts).percentages, 0 ≤ p.2 ∧ p.2 ≤ 100) ∧
    (0 < (derivePercentages counts).totalVotes →
      ∀ e ∈ counts,
        (e.1, jsRound ((100 * (e.2 : ℚ)) / ((counts.map Prod.snd).sum : ℚ)))
          ∈ (derivePercentages counts).percentages) := by
  have hper : (derivePercentages counts).percentages
      = counts.map (fun e => (e.1,
          if (counts.map Prod.snd).sum = 0 then (0 : ℤ)
          else jsRound (((e.2 : ℚ) / (((counts.map Prod.snd).sum : ℤ) : ℚ)) * 100))) :=
    rfl
  have htot : (derivePercentages counts).totalVotes
      = (counts.map Prod.snd).sum := rfl
  have hnn : ∀ x ∈ counts.map Prod.snd, (0 : ℤ) ≤ x := by
    intro x hx
    obtain ⟨e2, he2, hfe⟩ := List.mem_map.mp hx
    exact hfe ▸ hpos e2 he2
  refine ⟨rfl, ?_, ?_, ?_⟩
  · intro h0 p hp
    rw [htot] at h0
    rw [hper] at hp
    obtain ⟨e, _, hfe⟩ := List.mem_map.mp hp
    rw [← hfe]
    simp [h0]
  · intro p hp
    rw [hper] at hp
    obtain ⟨e, he, hfe⟩ := List.mem_map.mp hp
    rw [← hfe]
    by_cases h0 : (counts.map Prod.snd).sum = 0
    · simp [h0]
    · have hTnn : (0 : ℤ) ≤ (counts.map Prod.snd).sum := List.sum_nonneg hnn
      have hTpos : (0 : ℤ) < (counts.map Prod.snd).sum :=
        lt_of_le_of_ne hTnn (Ne.symm h0)
      have hle : e.2 ≤ (counts.map Prod.snd).sum :=
        List.single_le_sum hnn e.2 (List.mem_map_of_mem Prod.snd he)
      have henn : (0 : ℤ) ≤ e.2 := hpos e he
      have hq0 : (0 : ℚ) ≤ ((e.2 : ℚ) / ((counts.map Prod.snd).sum : ℚ)) * 100 := by
        apply mul_nonneg
        · apply div_nonneg
          · exact_mod_cast henn
          · exact_mod_cast hTnn
        · norm_num
      have hq100 : ((e.2 : ℚ) / ((counts.map Prod.snd).sum : ℚ)) * 100 ≤ 100 := by
        have hT : (0 : ℚ) < ((counts.map Prod.snd).sum : ℚ) := by
          exact_mod_cast hTpos
        rw [div_mul_eq_mul_div, div_le_iff₀ hT]
        have hc : (e.2 : ℚ) ≤ ((counts.map Prod.snd).sum : ℚ) := by
          exact_mod_cast hle
        nlinarith
      constructor
      · simpa [h0] using jsRound_nonneg _ hq0
      · simpa [h0] using jsRound_le_100 _ hq100
  · intro hTpos e he
    rw [htot] at hTpos
    rw [hper]
    have h0 : (counts.map Prod.snd).sum ≠ 0 := ne_of_gt hTpos
    have hring : ((100 * (e.2 : ℚ)) / ((counts.map Prod.snd).sum : ℚ))
        = ((e.2 : ℚ) / ((counts.map Prod.snd).sum : ℚ)) * 100 := by
      ring
    rw [hring]
    have hmem := List.mem_map_of_mem (fun e => (e.1,
        if (counts.map Prod.snd).sum = 0 then (0 : ℤ)
        else jsRound (((e.2 : ℚ) / (((counts.map Prod.snd).sum : ℤ) : ℚ)) * 100))) he
    simpa [h0] using hmem

/-- Claim C4, witness: the total equals the sum of all counts at the
concrete mapping `{a: 2, b: 1}`. -/
theorem derivePercentages_spec_witness :
    (derivePercentages [("a", (2 : ℤ)), ("b", 1)]).totalVotes
      = ([("a", (2 : ℤ)), ("b", 1)].map Prod.snd).sum :=
  (derivePercentages_spec [("a", 2), ("b", 1)] (by decide)).1

/-- Claim C5: for every prior state, the `POLL_REPLACED` action yields a
state with empty counts, empty percentages, zero total, a cleared
user-vote slot, and status idle. -/
theorem pollReplaced_resets (s : VotingState) (poll : Poll) (vans : List Van) :
    (reducer s (Action.pollReplaced poll vans)).voteCounts = [] ∧
    (reducer s (Action.pollReplaced poll vans)).percentages = [] ∧
    (reducer s (Action.pollReplaced poll vans)).totalVotes = 0 ∧
    (reducer s (Action.pollReplaced poll vans)).userVanId = none ∧
    (reducer s (Action.pollReplaced poll vans)).status = VotingStatus.idle :=
  ⟨rfl, rfl, rfl, rfl, rfl⟩

/-- Claim C6: both vote-submission failure channels — a transport error
from the RPC call, and a (non-empty, hence truthy) business-rule error
embedded in a successful response payload — yield status `error` with that
message and leave the user-vote slot unchanged. -/
theorem castVote_failure_channels (s : VotingState) (vanId msg : String)
    (res : RpcResult)
    (h : res.error = some msg ∨
      (res.error = none ∧ Option.bind res.data CastVoteData.error = some msg ∧
       msg ≠ "")) :
    (applyActions s (castVoteActions vanId res)).status = VotingStatus.error ∧
    (applyActions s (castVoteActions vanId res)).error = some msg ∧
    (applyActions s (castVoteActions vanId res)).userVanId = s.userVanId := by
  rcases h with h | ⟨h1, h2, h3⟩
  · simp [castVoteActions, applyActions, reducer, h]
  · simp [castVoteActions, applyActions, reducer, h1, h2, h3]

/-- Claim C6, witness: a concrete transport failure at the initial state. -/
theorem castVote_failure_channels_witness :
    (applyActions initialState
        (castVoteActions "a" ⟨none, some "boom"⟩)).status = VotingStatus.error ∧
    (applyActions initialState
        (castVoteActions "a" ⟨none, some "boom"⟩)).error = some "boom" ∧
    (applyActions initialState
        (castVoteActions "a" ⟨none, some "boom"⟩)).userVanId
      = initialState.userVanId :=
  castVote_failure_channels initialState "a" "boom" ⟨none, some "boom"⟩
    (Or.inl rfl)

/-- Claim C7: a vote submission with no transport error and no embedded
business error sets status `voted` and records the chosen option id in the
user-vote slot, while leaving `voteCounts`, `percentages` and `totalVotes`
unchanged — the submission path never increments any count. -/
theorem castVote_success_frame (s : VotingState) (vanId : String)
    (res : RpcResult) (h1 : res.error = none)
    (h2 : Option.bind res.data CastVoteData.error = none) :
    (applyActions s (castVoteActions vanId res)).status = VotingStatus.voted ∧
    (applyActions s (castVoteActions vanId res)).userVanId = some vanId ∧
    (applyActions s (castVoteActions vanId res)).voteCounts = s.voteCounts ∧
    (applyActions s (castVoteActions vanId res)).percentages = s.percentages ∧
    (applyActions s (castVoteActions vanId res)).totalVotes = s.totalVotes := by
  simp [castVoteActions, applyActions, reducer, h1, h2]

/-- Claim C7, witness: a concrete successful submission at a loaded
state. -/
theorem castVote_success_frame_witness :
    (applyActions stateA
        (castVoteActions "a" ⟨some ⟨none⟩, none⟩)).status = VotingStatus.voted ∧
    (applyActions stateA
        (castVoteActions "a" ⟨some ⟨none⟩, none⟩)).userVanId = some "a" ∧
    (applyActions stateA
        (castVoteActions "a" ⟨some ⟨none⟩, none⟩)).voteCounts = stateA.voteCounts ∧
    (applyActions stateA
        (castVoteActions "a" ⟨some ⟨none⟩, none⟩)).percentages = stateA.percentages ∧
    (applyActions stateA
        (castVoteActions "a" ⟨some ⟨none⟩, none⟩)).totalVotes = stateA.totalVotes :=
  castVote_success_frame stateA "a" ⟨some ⟨none⟩, none⟩ rfl rfl

/-- Claim C8: from a state whose counts are all non-negative, any count
delta of `+1` or `-1` (the floored decrement included, even without a
prior matching increment) leaves all counts non-negative. -/
theorem countUpdated_nonneg (s : VotingState) (vanId : String) (delta : ℤ)
    (hnn : ∀ e ∈ s.voteCounts, 0 ≤ e.2) (hdelta : delta = 1 ∨ delta = -1) :
    ∀ e ∈ (reducer s (Action.countUpdated vanId delta)).voteCounts, 0 ≤ e.2 := by
  have hred : (reducer s (Action.countUpdated vanId delta)).voteCounts
      = jsSet s.voteCounts vanId
          (max 0 ((jsGet s.voteCounts vanId).getD 0 + delta)) := rfl
  rw [hred]
  exact jsSet_nonneg vanId _ (le_max_left 0 _) s.voteCounts hnn

/-- Claim C8, witness: a vote-removed delta for option `b` with no prior
vote at a concrete loaded state inserts `b` floored at zero, and that
entry is non-negative. -/
theorem countUpdated_nonneg_witness :
    ("b", (0 : ℤ)) ∈ (reducer stateA (Action.countUpdated "b" (-1))).voteCounts ∧
    0 ≤ (("b", (0 : ℤ)) : String × ℤ).2 :=
  ⟨by decide,
   countUpdated_nonneg stateA "b" (-1) (by decide) (Or.inr rfl)
     ("b", 0) (by decide)⟩

/-- Claim C9: from a state with non-negative counts, a vote-created delta
for an option followed by a vote-removed delta for the same option returns
every per-option count (reading absent keys as zero, as the code does) to
its original value. -/
theorem voteCreated_voteRemoved_roundtrip (s : VotingState) (vanId : String)
    (hnn : ∀ e ∈ s.voteCounts, 0 ≤ e.2) :
    ∀ j, (jsGet (reducer (reducer s (Action.countUpdated vanId 1))
        (Action.countUpdated vanId (-1))).voteCounts j).getD 0
      = (jsGet s.voteCounts j).getD 0 := by
  intro j
  have hg : 0 ≤ (jsGet s.voteCounts vanId).getD 0 :=
    jsGet_getD_nonneg vanId s.voteCounts hnn
  have h2 : (reducer (reducer s (Action.countUpdated vanId 1))
      (Action.countUpdated vanId (-1))).voteCounts
    = jsSet (jsSet s.voteCounts vanId
          (max 0 ((jsGet s.voteCounts vanId).getD 0 + 1))) vanId
        (max 0 ((jsGet (jsSet s.voteCounts vanId
          (max 0 ((jsGet s.voteCounts vanId).getD 0 + 1))) vanId).getD 0
            + (-1))) := rfl
  have hmax1 : max 0 ((jsGet s.voteCounts vanId).getD 0 + 1)
      = (jsGet s.voteCounts vanId).getD 0 + 1 := max_eq_right (by linarith)
  rw [h2, hmax1, jsGet_jsSet_self]
  simp only [Option.getD_some]
  have hstep : max 0 ((jsGet s.voteCounts vanId).getD 0 + 1 + (-1))
      = (jsGet s.voteCounts vanId).getD 0 := by
    have hh : (jsGet s.voteCounts vanId).getD 0 + 1 + (-1)
        = (jsGet s.voteCounts vanId).getD 0 := by ring
    rw [hh]
    exact max_eq_right hg
  rw [hstep]
  by_cases hj : j = vanId
  · subst hj
    rw [jsGet_jsSet_self, Option.getD_some]
  · rw [jsGet_jsSet_ne _ _ _ _ hj, jsGet_jsSet_ne _ _ _ _ hj]

/-- Claim C9, witness: the round trip at a concrete state with
counts `{a: 2}`, read back at key `a`. -/
theorem voteCreated_voteRemoved_roundtrip_witness :
    (jsGet (reducer (reducer stateA (Action.countUpdated "a" 1))
        (Action.countUpdated "a" (-1))).voteCounts "a").getD 0
      = (jsGet stateA.voteCounts "a").getD 0 :=
  voteCreated_voteRemoved_roundtrip stateA "a" (by decide) "a"

/-- Claim C10: a count delta whose option id is absent from the counts
mapping treats the missing count as zero: an increment inserts the id with
count `1`, a decrement inserts it with count `0` (floored). -/
theorem countUpdated_absent_key (s : VotingState) (vanId : String)
    (habs : jsGet s.voteCounts vanId = none) :
    jsGet (reducer s (Action.countUpdated vanId 1)).voteCounts vanId
        = some 1 ∧
    jsGet (reducer s (Action.countUpdated vanId (-1))).voteCounts vanId
        = some 0 := by
  constructor
  · have h1 : (reducer s (Action.countUpdated vanId 1)).voteCounts
        = jsSet s.voteCounts vanId
            (max 0 ((jsGet s.voteCounts vanId).getD 0 + 1)) := rfl
    rw [h1, habs]
    have hv : max (0 : ℤ) ((Option.getD (none : Option ℤ) 0) + 1) = 1 := by
      decide
    rw [hv, jsGet_jsSet_self]
  · have h1 : (reducer s (Action.countUpdated vanId (-1))).voteCounts
        = jsSet s.voteCounts vanId
            (max 0 ((jsGet s.voteCounts vanId).getD 0 + (-1))) := rfl
    rw [h1, habs]
    have hv : max (0 : ℤ) ((Option.getD (none : Option ℤ) 0) + (-1)) = 0 := by
      decide
    rw [hv, jsGet_jsSet_self]

/-- Claim C10, witness: a delta for the unknown id `z` at the initial
state inserts `z` with count `1` (increment) or `0` (decrement). -/
theorem countUpdated_absent_key_witness :
    jsGet (reducer initialState (Action.countUpdated "z" 1)).voteCounts "z"
        = some 1 ∧
    jsGet (reducer initialState (Action.countUpdated "z" (-1))).voteCounts "z"
        = some 0 :=
  countUpdated_absent_key initialState "z" rfl

/-- Claim C1 (code bug, concrete evaluation): on a vans-table change event
with poll `pollMay` displayed and counts `{a: 2}`, the handler dispatches
`POLL_REPLACED`, whose reduction wipes the vote counts and total — even
though the handler comment in the source says existing counts are
preserved. Only the poll itself survives unchanged. -/
theorem vansChange_wipes_counts :
    vansChangeActions stateA.poll (some [vanA, vanB])
        = [Action.pollReplaced pollMay [vanA, vanB]] ∧
    (applyActions stateA
        (vansChangeActions stateA.poll (some [vanA, vanB]))).voteCounts = [] ∧
    stateA.voteCounts = [("a", 2)] ∧
    (applyActions stateA
        (vansChangeActions stateA.poll (some [vanA, vanB]))).poll
      = stateA.poll ∧
    (applyActions stateA
        (vansChangeActions stateA.poll (some [vanA, vanB]))).totalVotes = 0 ∧
    stateA.totalVotes = 2 :=
  ⟨rfl, rfl, rfl, rfl, rfl, rfl⟩

/-- Claim C2 (code bug, concrete evaluation): when the active-poll fetch
succeeds with `pollMay` but the vans fetch fails, `bootstrap` dispatches
nothing at all — the poll is never set and `isLoadingPoll` stays `true`,
so the options-fetch failure does block poll display. -/
theorem bootstrap_vansError_blocks_poll :
    bootstrapActions ⟨some pollMay, none⟩ ⟨none, some "network error"⟩
        ⟨none, none⟩ none none = [] ∧
    (applyActions initialState (bootstrapActions ⟨some pollMay, none⟩
        ⟨none, some "network error"⟩ ⟨none, none⟩ none none)).poll = none ∧
    (applyActions initialState (bootstrapActions ⟨some pollMay, none⟩
        ⟨none, some "network error"⟩ ⟨none, none⟩ none none)).isLoadingPoll
      = true ∧
    (applyActions initialState (bootstrapActions ⟨some pollMay, none⟩
        ⟨none, some "network error"⟩ ⟨none, none⟩ none none)).vans = [] :=
  ⟨rfl, rfl, rfl, rfl⟩

end FoodVanVote
